import Mathlib

/-!
# Verification of the LakeHouseAccelerator provisioning core

A shallow embedding, in Lean 4, of the provisioning orchestration layer of
the LakeHouseAccelerator repository (`handlers.py`, `databricks_api.py`,
`logger_utils.py`, `app.py`), together with theorems settling the frozen
claims about it.

Modelling conventions:
* Python strings are Lean `String`s; `str.strip` / `str.lower` / `str.upper`
  / single-character `str.split` are modelled by executable helpers
  (`py_strip`, `py_lower`, `py_upper`, `py_split_char`) defined on the
  underlying character list, mirroring the ASCII behaviour the code relies on.
* An input row (a string-keyed dict whose absent keys read as `""`) is the
  structure `Row`, with every field defaulting to `""`.
* The remote SCIM / compute API is modelled as explicit state
  (`DirState`, `ComputeState`).  The remote server is well behaved: list
  calls return the current resources filtered exactly as requested, create
  calls succeed with a fresh id (`Nat.repr nextId`), and patch / delete
  calls succeed.  Mutating-call counters record every create / patch /
  delete issued, so "performs no mutating call" is provable as counter and
  resource-list preservation.
* A Python function that can `raise` returns `Except String α` paired with
  the final state (mutations made before the raise persist); a function
  that cannot raise returns the plain value.
* The HTTP retry primitive `_safe_request` is modelled separately
  (`safe_request`): the network is an oracle list of per-attempt results,
  and the returned value also carries the list of back-off sleeps that were
  performed, so the retry/backoff schedule is provable.
* `append_audit` appears at two levels: inside handlers it is the state
  operation that appends one `AuditEntry`; the storage routing of
  `logger_utils.append_audit` (primary structured store with flat-file
  fallback) is modelled on its own as `append_audit_logger`.
-/

/-! ## Python string primitives -/

def is_space (c : Char) : Bool :=
  c = ' ' ∨ c = '\t' ∨ c = '\n' ∨ c = '\r'

/-- `str.strip()`: drop leading and trailing whitespace. -/
def py_strip (s : String) : String :=
  ⟨((s.data.dropWhile is_space).reverse.dropWhile is_space).reverse⟩

def lower_char (c : Char) : Char :=
  if 'A' ≤ c ∧ c ≤ 'Z' then Char.ofNat (c.toNat + 32) else c

def upper_char (c : Char) : Char :=
  if 'a' ≤ c ∧ c ≤ 'z' then Char.ofNat (c.toNat - 32) else c

/-- `str.lower()` (ASCII, as used by the code). -/
def py_lower (s : String) : String :=
  ⟨s.data.map lower_char⟩

/-- `str.upper()` (ASCII, as used by the code). -/
def py_upper (s : String) : String :=
  ⟨s.data.map upper_char⟩

def py_split_char_aux (c : Char) : List Char → List Char → List String
  | [], acc => [⟨acc.reverse⟩]
  | x :: xs, acc =>
      if x = c then ⟨acc.reverse⟩ :: py_split_char_aux c xs []
      else py_split_char_aux c xs (x :: acc)

/-- `str.split(sep)` for a one-character separator. -/
def py_split_char (c : Char) (s : String) : List String :=
  py_split_char_aux c s.data []

/-- `sep.join(parts)` / `"_".join(parts)`. -/
def join_sep (sep : String) : List String → String
  | [] => ""
  | [a] => a
  | a :: b :: rest => a ++ sep ++ join_sep sep (b :: rest)

/-- `(email or "").strip().lower()`, the normalisation applied to emails. -/
def norm_email (s : String) : String := py_lower (py_strip s)

/-! ## Input rows -/

/-- Outcome of `json.loads` on the `attributes_json` field of a row
(the only observations `update_user_handler` makes of that field). -/
inductive AttrsOutcome
  | absent
  | invalid (err : String)
  | parsed (displayName : Option String) (active : Option Bool)
deriving DecidableEq, Repr

/-- One input row: a string-keyed mapping, absent keys reading as `""`.
`base_workers` is carried as its parsed numeric value (`none` = blank). -/
structure Row where
  action : String := ""
  admin : String := ""
  principal_type : String := ""
  user_email : String := ""
  email : String := ""
  user_id : String := ""
  first_name : String := ""
  last_name : String := ""
  attributes : AttrsOutcome := .absent
  group_members : String := ""
  domain : String := ""
  bu : String := ""
  other_type : String := ""
  role : String := ""
  appName : String := ""
  env : String := ""
  application_name : String := ""
  cluster_type : String := ""
  node_type_id : String := ""
  base_workers : Option Nat := none
  sql_wh_size : String := ""
  cost_center : String := ""
  department : String := ""
  business_owner : String := ""
  environment : String := ""
deriving DecidableEq, Repr

/-! ## handlers.py: helpers -/

/-- `handlers._split_members`: split a member list on `","` (preferred) or
`";"`, stripping and lowercasing each entry and dropping blanks. -/
def split_members (members_csv : String) : List String :=
  if members_csv = "" then []
  else
    let csv := py_strip members_csv
    if csv.data.contains ',' then
      (py_split_char ',' csv).filterMap
        (fun p => if py_strip p = "" then none else some (py_lower (py_strip p)))
    else if csv.data.contains ';' then
      (py_split_char ';' csv).filterMap
        (fun p => if py_strip p = "" then none else some (py_lower (py_strip p)))
    else if csv = "" then [] else [py_lower csv]

/-- The part-joining step of `handlers.construct_group_name`: start from the
environment prefix and append each remaining part only when non-empty. -/
def group_name_parts (env bu_value domain appName role : String) : String :=
  let p1 := [env]
  let p2 := if bu_value ≠ "" then p1 ++ ["TM" ++ bu_value] else p1
  let p3 := if domain ≠ "" then p2 ++ [domain] else p2
  let p4 := if appName ≠ "" then p3 ++ [appName] else p3
  let p5 := if role ≠ "" then p4 ++ [role] else p4
  join_sep "_" p5

/-- `handlers.construct_group_name`.  The `ValueError` raised when `bu` is
`"Others"` with a blank override becomes `Except.error` (quotes of the
source message elided). -/
def construct_group_name (row : Row) : Except String String :=
  let env_raw := py_lower (py_strip row.env)
  let env := if env_raw ∈ (["prod", "production", "prd", "p"] : List String)
             then "prod" else "nprod"
  let bu := py_strip row.bu
  let domain := py_strip row.domain
  let appName := py_strip row.appName
  let role := py_strip row.role
  if bu = "Others" then
    let bu_value := py_strip row.other_type
    if bu_value = "" then Except.error "other_type is required when bu is Others"
    else Except.ok (group_name_parts env bu_value domain appName role)
  else Except.ok (group_name_parts env bu domain appName role)

/-- Modelled from the spec (§4.3 GroupName algorithm, claim C2 wording), for
refinement comparison with `construct_group_name`: normalise the
environment to a prefix, substitute the override when the business unit is
`"Others"` (failing when blank), then join the non-empty parts
`prefix, "TM"+bu, domain, application, role` with `"_"`, omitting empty
parts. -/
def group_name_spec (row : Row) : Except String String :=
  let pfx := if py_lower (py_strip row.env) ∈ (["prod", "production", "prd", "p"] : List String)
             then "prod" else "nprod"
  let bu := py_strip row.bu
  let buV := if bu = "Others" then py_strip row.other_type else bu
  if bu = "Others" ∧ py_strip row.other_type = "" then
    Except.error "other_type is required when bu is Others"
  else
    Except.ok (join_sep "_"
      (([pfx, if buV = "" then "" else "TM" ++ buV,
         py_strip row.domain, py_strip row.appName, py_strip row.role]).filter
        (fun s => s != "")))

deriving instance DecidableEq for Except

/-! ## The SCIM directory world -/

/-- One audit log entry, projected to the fields the claims observe. -/
structure AuditEntry where
  action : String
  principal_type : String
  identifier : String
  status : String
  details : String
deriving DecidableEq, Repr

/-- A SCIM user resource. -/
structure ScimUser where
  id : String
  userName : String
  emails : List String
  givenName : String := ""
  familyName : String := ""
  formatted : String := ""
  displayName : String := ""
  active : Bool := true
deriving DecidableEq, Repr

/-- A SCIM group resource. -/
structure ScimGroup where
  id : String
  displayName : String
  members : List String
deriving DecidableEq, Repr

/-- The remote directory plus per-kind mutating-call counters and the audit
trail written through `logger_utils.append_audit`. -/
structure DirState where
  users : List ScimUser := []
  groups : List ScimGroup := []
  nextUserId : Nat := 0
  nextGroupId : Nat := 0
  userCreateCalls : Nat := 0
  userPatchCalls : Nat := 0
  userDeleteCalls : Nat := 0
  groupCreateCalls : Nat := 0
  groupPatchCalls : Nat := 0
  audits : List AuditEntry := []
deriving DecidableEq, Repr

/-- `logger_utils.append_audit` as seen from the handlers: one entry is
appended to the trail (storage routing is modelled separately below). -/
def append_audit (st : DirState) (action principal identifier status details : String) : DirState :=
  { st with audits := st.audits ++ [⟨action, principal, identifier, status, details⟩] }

/-- `handlers._find_user_by_email`: filter on `userName eq email` and take
the first hit, then fall back to a filter on `emails.value eq email`. -/
def find_user_by_email (st : DirState) (email : String) : Option ScimUser :=
  if email = "" then none
  else
    match st.users.filter (fun u => u.userName == email) with
    | u :: _ => some u
    | [] => (st.users.filter (fun u => u.emails.contains email)).head?

/-- `handlers.get_user_id_by_email`. -/
def get_user_id_by_email (st : DirState) (email : String) : Option String :=
  (find_user_by_email st (norm_email email)).map (fun u => u.id)

/-- `databricks_api.scim_create_user` against the well-behaved remote: the
user is stored with the fresh id `Nat.repr nextUserId` and a 201 response
carrying that id is returned. -/
def scim_create_user (st : DirState) (userName given family formatted : String)
    (emails : List String) : String × DirState :=
  let uid := Nat.repr st.nextUserId
  (uid,
   { st with
       users := st.users ++ [{ id := uid, userName := userName, emails := emails,
                               givenName := given, familyName := family,
                               formatted := formatted, active := true }],
       nextUserId := st.nextUserId + 1,
       userCreateCalls := st.userCreateCalls + 1 })

/-- `display.split(" ", 1)`: given name before the first space, family name
the remainder. -/
def split_first_space (s : String) : String × String :=
  match py_split_char ' ' s with
  | [] => (s, "")
  | [g] => (g, "")
  | g :: rest => (g, join_sep " " rest)

/-- Result dict of `handlers.ensure_user`. -/
structure EnsureResult where
  existed : Bool
  id : Option String
  error : Option String := none
deriving DecidableEq, Repr

/-- `handlers.ensure_user`.  The well-behaved remote always answers 201, so
the non-2xx failure branch of the source is unreachable here. -/
def ensure_user (st : DirState) (email : String) (display_name : Option String) :
    EnsureResult × DirState :=
  let email_norm := norm_email email
  if email_norm = "" then ({ existed := false, id := none, error := some "no_email_provided" }, st)
  else
    match find_user_by_email st email_norm with
    | some existing => ({ existed := true, id := some existing.id }, st)
    | none =>
        let display := py_strip (display_name.getD email_norm)
        let gf := split_first_space display
        let created := scim_create_user st email_norm gf.1 gf.2 display [email_norm]
        let st2 := append_audit created.2 "CREATE_USER" "user" email_norm "SUCCESS" "created"
        ({ existed := false, id := some created.1 }, st2)

/-- Result dict of `handlers.create_user_handler`. -/
structure CreateUserResult where
  status : String
  id : Option String
deriving DecidableEq, Repr

/-- `handlers.create_user_handler`. -/
def create_user_handler (row : Row) (st : DirState) :
    Except String CreateUserResult × DirState :=
  let email := norm_email row.user_email
  let first_name := py_strip row.first_name
  let last_name := py_strip row.last_name
  let display_name :=
    if first_name ≠ "" ∨ last_name ≠ "" then
      py_strip (first_name ++ (if last_name ≠ "" then " " ++ last_name else ""))
    else email
  if email = "" then
    (Except.error "user_email required",
     append_audit st "CREATE_USER" "user" "" "FAILED" "user_email missing")
  else
    match find_user_by_email st email with
    | some existing =>
        (Except.ok { status := "skipped", id := some existing.id },
         append_audit st "CREATE_USER" "user" email "SKIPPED" "already_exists")
    | none =>
        let er := ensure_user st email (some display_name)
        match er.1.id with
        | some uid => (Except.ok { status := "created", id := some uid }, er.2)
        | none =>
            (Except.error ("create_user failed: " ++ er.1.error.getD ""), er.2)

/-! ## handlers.py: group operations -/

/-- `handlers._find_group_by_display_name`: filter on
`displayName eq name`, first hit or `none`. -/
def find_group_by_display_name (st : DirState) (name : String) : Option ScimGroup :=
  if name = "" then none
  else (st.groups.filter (fun g => g.displayName == name)).head?

/-- `databricks_api.scim_create_group` against the well-behaved remote. -/
def scim_create_group (st : DirState) (displayName : String) : String × DirState :=
  let gid := Nat.repr st.nextGroupId
  (gid,
   { st with
       groups := st.groups ++ [{ id := gid, displayName := displayName, members := [] }],
       nextGroupId := st.nextGroupId + 1,
       groupCreateCalls := st.groupCreateCalls + 1 })

/-- `databricks_api.scim_patch_group` with one `add members` operation. -/
def scim_patch_group_add (st : DirState) (gid : String) (memberIds : List String) : DirState :=
  { st with
      groups := st.groups.map (fun g =>
        if g.id == gid then { g with members := g.members ++ memberIds } else g),
      groupPatchCalls := st.groupPatchCalls + 1 }

/-- `databricks_api.scim_patch_group` with one
`remove members[value eq uid]` operation. -/
def scim_patch_group_remove (st : DirState) (gid : String) (uid : String) : DirState :=
  { st with
      groups := st.groups.map (fun g =>
        if g.id == gid then { g with members := g.members.filter (fun m => m != uid) } else g),
      groupPatchCalls := st.groupPatchCalls + 1 }

/-- Result dict of `handlers.create_group_handler`. -/
structure CreateGroupResult where
  status : String
  members_patched : Bool
deriving DecidableEq, Repr

/-- `handlers.create_group_handler`.  Creation and the member patch succeed
against the well-behaved remote, so the source's non-2xx branches after
them are unreachable here. -/
def create_group_handler (row : Row) (st : DirState) :
    Except String CreateGroupResult × DirState :=
  match construct_group_name row with
  | Except.error e => (Except.error e, st)
  | Except.ok group_name =>
    if group_name = "" then
      (Except.error "group_name required",
       append_audit st "CREATE_GROUP" "group" "" "FAILED" "cannot construct group_name from row data")
    else
      match find_group_by_display_name st group_name with
      | some _ =>
          (Except.error "Group already exists. Use add_to_group to add members.",
           append_audit st "CREATE_GROUP" "group" group_name "FAILED"
             "Group already exists. Use add_to_group to add members.")
      | none =>
          let members := split_members row.group_members
          let member_ids := members.filterMap (fun m => get_user_id_by_email st m)
          let missing := members.filter (fun m => (get_user_id_by_email st m).isNone)
          if missing ≠ [] then
            let msg := "Cannot create group. These users do not exist: " ++ join_sep ", " missing
            (Except.error msg, append_audit st "CREATE_GROUP" "group" group_name "FAILED" msg)
          else
            let created := scim_create_group st group_name
            let st2 := append_audit created.2 "CREATE_GROUP" "group" group_name "SUCCESS" "created"
            if member_ids ≠ [] then
              let st3 := scim_patch_group_add st2 created.1 member_ids
              let st4 := append_audit st3 "CREATE_GROUP" "group" group_name "SUCCESS"
                ("added " ++ Nat.repr member_ids.length ++ " members")
              (Except.ok { status := "created", members_patched := true }, st4)
            else
              (Except.ok { status := "created", members_patched := false }, st2)

/-- `handlers.add_members_to_group_handler`; the returned string is the
`status` field of the source's result dict. -/
def add_members_to_group_handler (row : Row) (st : DirState) :
    Except String String × DirState :=
  match construct_group_name row with
  | Except.error e => (Except.error e, st)
  | Except.ok group_name =>
    if group_name = "" then
      (Except.error "group_name required",
       append_audit st "ADD_TO_GROUP" "group" "" "FAILED" "cannot construct group_name")
    else
      let members := split_members row.group_members
      if members = [] then
        (Except.ok "noop",
         append_audit st "ADD_TO_GROUP" "group" group_name "NOOP" "no members specified")
      else
        match find_group_by_display_name st group_name with
        | none =>
            (Except.error "group not found",
             append_audit st "ADD_TO_GROUP" "group" group_name "NOT_FOUND" "group not found")
        | some group =>
            let member_ids := members.filterMap (fun m => get_user_id_by_email st m)
            let missing := members.filter (fun m => (get_user_id_by_email st m).isNone)
            if missing ≠ [] then
              let msg := "Cannot add members. These users do not exist: " ++ join_sep ", " missing
              (Except.error msg, append_audit st "ADD_TO_GROUP" "group" group_name "FAILED" msg)
            else
              let st1 := scim_patch_group_add st group.id member_ids
              (Except.ok "added",
               append_audit st1 "ADD_TO_GROUP" "group" group_name "SUCCESS"
                 ("added " ++ Nat.repr member_ids.length))

/-- Per-member entry of `remove_members_from_group_handler`'s results list. -/
structure MemberResult where
  member : String
  id : Option String
  status : String
deriving DecidableEq, Repr

/-- Result dict of `handlers.remove_members_from_group_handler`. -/
structure RemoveResult where
  status : String
  results : List MemberResult
deriving DecidableEq, Repr

/-- One iteration of the removal loop: resolve the member email; when it
does not resolve, the non-empty member string itself is used as the id
(the source's `candidate if candidate else None` fallback); only a blank
member would reach the `skipped` branch.  The patch against the
well-behaved remote returns, so the `failed` branch is unreachable here. -/
def remove_member_step (st : DirState) (group_name gid m : String) :
    MemberResult × DirState :=
  let uid0 := get_user_id_by_email st m
  let uid : Option String :=
    match uid0 with
    | some u => some u
    | none => if m ≠ "" then some m else none
  match uid with
  | none =>
      ({ member := m, id := none, status := "skipped" },
       append_audit st "REMOVE_FROM_GROUP" "group" group_name "SKIPPED" ("user not found " ++ m))
  | some u =>
      let st1 := scim_patch_group_remove st gid u
      ({ member := m, id := some u, status := "removed" },
       append_audit st1 "REMOVE_FROM_GROUP" "group" group_name "SUCCESS" ("removed " ++ u))

/-- The member loop of `remove_members_from_group_handler`. -/
def remove_members_loop (group_name gid : String) :
    List String → DirState → List MemberResult × DirState
  | [], st => ([], st)
  | m :: rest, st =>
      let step := remove_member_step st group_name gid m
      let tail := remove_members_loop group_name gid rest step.2
      (step.1 :: tail.1, tail.2)

/-- `handlers.remove_members_from_group_handler`. -/
def remove_members_from_group_handler (row : Row) (st : DirState) :
    Except String RemoveResult × DirState :=
  match construct_group_name row with
  | Except.error e => (Except.error e, st)
  | Except.ok group_name =>
    if group_name = "" then
      (Except.error "group_name required",
       append_audit st "REMOVE_FROM_GROUP" "group" "" "FAILED" "cannot construct group_name")
    else
      let members := split_members row.group_members
      if members = [] then
        (Except.ok { status := "noop", results := [] },
         append_audit st "REMOVE_FROM_GROUP" "group" group_name "NOOP" "no members specified")
      else
        match find_group_by_display_name st group_name with
        | none =>
            (Except.error "group not found",
             append_audit st "REMOVE_FROM_GROUP" "group" group_name "NOT_FOUND" "group not found")
        | some group =>
            let run := remove_members_loop group_name group.id members st
            let status :=
              if run.1.any (fun r => r.status != "removed") then "partial" else "removed_all"
            (Except.ok { status := status, results := run.1 }, run.2)

/-! ## handlers.py: user update / delete, and app.py: process_row -/

/-- A SCIM patch operation built by `update_user_handler` (the three
`replace` shapes the source can emit). -/
inductive UOp
  | replaceDisplayName (v : String)
  | replaceActive (b : Bool)
  | replaceNameFormatted (v : String)
deriving DecidableEq, Repr

/-- `op.get("path") in ("displayName", "name.formatted")`. -/
def uop_path_is_display (o : UOp) : Bool :=
  match o with
  | .replaceDisplayName _ => true
  | .replaceNameFormatted _ => true
  | .replaceActive _ => false

def apply_uop (u : ScimUser) (o : UOp) : ScimUser :=
  match o with
  | .replaceDisplayName v => { u with displayName := v }
  | .replaceActive b => { u with active := b }
  | .replaceNameFormatted v => { u with formatted := v }

/-- `databricks_api.scim_patch_user` against the well-behaved remote. -/
def scim_patch_user (st : DirState) (uid : String) (ops : List UOp) : DirState :=
  { st with
      users := st.users.map (fun u => if u.id == uid then ops.foldl apply_uop u else u),
      userPatchCalls := st.userPatchCalls + 1 }

/-- Continuation of `update_user_handler` after `attributes_json` was read
without error (`ops0` holds the operations it contributed). -/
def update_user_finish (row : Row) (st : DirState) (email user_id : String)
    (ops0 : List UOp) : Except String String × DirState :=
  let first_name := py_strip row.first_name
  let last_name := py_strip row.last_name
  let composed :=
    if first_name ≠ "" ∨ last_name ≠ "" then
      py_strip (first_name ++ (if last_name ≠ "" then " " ++ last_name else ""))
    else ""
  let ops :=
    if composed ≠ "" ∧ ¬ (ops0.any uop_path_is_display) then
      ops0 ++ [UOp.replaceNameFormatted composed]
    else ops0
  if ops = [] then
    (Except.ok "noop", append_audit st "UPDATE_USER" "user" email "NOOP" "nothing to update")
  else
    let st1 := scim_patch_user st user_id ops
    (Except.ok "updated", append_audit st1 "UPDATE_USER" "user" email "SUCCESS" "patched")

/-- `handlers.update_user_handler`; the returned string is the `status`
field of the source's result dict. -/
def update_user_handler (row : Row) (st : DirState) :
    Except String String × DirState :=
  let email := norm_email row.user_email
  if email = "" then
    (Except.error "user_email required",
     append_audit st "UPDATE_USER" "user" "" "FAILED" "user_email required")
  else
    match find_user_by_email st email with
    | none =>
        (Except.error "user not found",
         append_audit st "UPDATE_USER" "user" email "NOT_FOUND" "user not found")
    | some existing =>
        match row.attributes with
        | .invalid err =>
            (Except.error ("invalid attributes_json: " ++ err),
             append_audit st "UPDATE_USER" "user" email "FAILED" ("invalid attributes_json: " ++ err))
        | .absent => update_user_finish row st email existing.id []
        | .parsed dn act =>
            let ops0 :=
              (match dn with | some v => [UOp.replaceDisplayName v] | none => []) ++
              (match act with | some b => [UOp.replaceActive b] | none => [])
            update_user_finish row st email existing.id ops0

/-- `databricks_api.scim_delete_user` against the well-behaved remote. -/
def scim_delete_user (st : DirState) (uid : String) : DirState :=
  { st with
      users := st.users.filter (fun u => u.id != uid),
      userDeleteCalls := st.userDeleteCalls + 1 }

/-- Result dict of `handlers.delete_user_handler`. -/
structure DeleteUserResult where
  status : String
  id : String
deriving DecidableEq, Repr

/-- `handlers.delete_user_handler`. -/
def delete_user_handler (row : Row) (st : DirState) :
    Except String DeleteUserResult × DirState :=
  let uid0 := py_strip row.user_id
  if uid0 = "" then
    let email := py_lower (py_strip (if row.user_email ≠ "" then row.user_email else row.email))
    if email = "" then
      (Except.error "user_id or user_email required",
       append_audit st "DELETE_USER" "user" "" "FAILED" "user_id or user_email required")
    else
      match find_user_by_email st email with
      | none =>
          (Except.error "user not found",
           append_audit st "DELETE_USER" "user" email "NOT_FOUND" "")
      | some existing =>
          let st1 := scim_delete_user st existing.id
          (Except.ok { status := "deleted", id := existing.id },
           append_audit st1 "DELETE_USER" "user" existing.id "SUCCESS" "deleted")
  else
    let st1 := scim_delete_user st uid0
    (Except.ok { status := "deleted", id := uid0 },
     append_audit st1 "DELETE_USER" "user" uid0 "SUCCESS" "deleted")

/-- The per-action result value placed in the `result` field of
`process_row`'s return dict. -/
inductive HRes
  | createUser (r : CreateUserResult)
  | updateUser (status : String)
  | deleteUser (r : DeleteUserResult)
  | createGroup (r : CreateGroupResult)
  | addMembers (status : String)
  | removeMembers (r : RemoveResult)
  | errorResult (msg : String)
deriving DecidableEq, Repr

/-- Return dict of `app.process_row`. -/
structure RowResult where
  row : Nat
  action : String
  principal_type : String
  identifier : String
  result : HRes
deriving DecidableEq, Repr

/-- `app.process_row`.  The outer `Except.error` means an exception escaped
`process_row` itself (which the source's `try` does not prevent when
`construct_group_name` raises again inside the `except` block, or when the
identifier expression of the final `return` raises). -/
def process_row (ix : Nat) (row : Row) (st : DirState) :
    Except String RowResult × DirState :=
  let action := py_upper (py_strip row.action)
  let dispatched : Except String HRes × DirState :=
    if action = "CREATE_USER" then
      let r := create_user_handler row st; (r.1.map HRes.createUser, r.2)
    else if action = "DELETE_USER" then
      let r := delete_user_handler row st; (r.1.map HRes.deleteUser, r.2)
    else if action = "UPDATE_USER" then
      let r := update_user_handler row st; (r.1.map HRes.updateUser, r.2)
    else if action = "CREATE_GROUP" then
      let r := create_group_handler row st; (r.1.map HRes.createGroup, r.2)
    else if action = "ADD_TO_GROUP" then
      let r := add_members_to_group_handler row st; (r.1.map HRes.addMembers, r.2)
    else if action = "REMOVE_FROM_GROUP" then
      let r := remove_members_from_group_handler row st; (r.1.map HRes.removeMembers, r.2)
    else
      (Except.ok (HRes.errorResult ("unknown action: " ++ action)),
       append_audit st action "unknown" "" "FAILED" "unknown action")
  let afterTry : Except String HRes × DirState :=
    match dispatched with
    | (Except.ok r, st1) => (Except.ok r, st1)
    | (Except.error e, st1) =>
        -- the except block: note it tests the RAW `row["action"]`, and its
        -- identifier expression re-runs `construct_group_name`, which can raise
        let identE : Except String String :=
          if row.action = "CREATE_GROUP" ∨ row.action = "ADD_TO_GROUP" ∨
             row.action = "REMOVE_FROM_GROUP" ∨ row.action = "UPDATE_GROUP" then
            (if row.user_email ≠ "" then Except.ok row.user_email else construct_group_name row)
          else Except.ok ""
        match identE with
        | Except.error e2 => (Except.error e2, st1)
        | Except.ok ident =>
            (Except.ok (HRes.errorResult e),
             append_audit st1 action "error" ident "FAILED" e)
  match afterTry with
  | (Except.error e2, st2) => (Except.error e2, st2)
  | (Except.ok res, st2) =>
      -- the final return's identifier chain, which can also raise
      let identR : Except String String :=
        if row.user_email ≠ "" then Except.ok row.user_email
        else if action = "CREATE_GROUP" ∨ action = "ADD_TO_GROUP" ∨
                action = "REMOVE_FROM_GROUP" then
          match construct_group_name row with
          | Except.error e3 => Except.error e3
          | Except.ok g =>
              if g ≠ "" then Except.ok g
              else if row.admin ≠ "" then Except.ok row.admin else Except.ok ""
        else if row.admin ≠ "" then Except.ok row.admin else Except.ok ""
      match identR with
      | Except.error e3 => (Except.error e3, st2)
      | Except.ok ident =>
          (Except.ok { row := ix, action := action, principal_type := row.principal_type,
                       identifier := ident, result := res }, st2)

/-! ## databricks_api.py: compute provisioning -/

/-- The cluster-create request body built by the active
`create_all_purpose_cluster` (the fields the claims observe). -/
structure ClusterPayload where
  cluster_name : String
  node_type_id : String
  min_workers : Nat
  max_workers : Nat
  custom_tags : List (String × String)
  policy_id : String
  autotermination_minutes : Nat
  data_security_mode : String
  spark_version : String
deriving DecidableEq, Repr

/-- The payload construction of `create_all_purpose_cluster`:
`min_workers = max(1, int(base_workers or 1))`,
`max_workers = max(2, int(base_workers or 1) * 2)`. -/
def cluster_create_payload (application_name policy_id node_type_id : String)
    (base_workers : Option Nat) (project_tags : List (String × String)) : ClusterPayload :=
  { cluster_name := application_name
    node_type_id := node_type_id
    min_workers := max 1 (base_workers.getD 1)
    max_workers := max 2 (base_workers.getD 1 * 2)
    custom_tags := project_tags
    policy_id := policy_id
    autotermination_minutes := 10
    data_security_mode := "USER_ISOLATION"
    spark_version := "16.4.x-scala2.12" }

/-- The SQL-warehouse create request body built by `create_sql_warehouse`. -/
structure WarehousePayload where
  name : String
  cluster_size : String
  auto_stop_mins : Nat
  min_num_clusters : Nat
  max_num_clusters : Nat
  enable_serverless_compute : Bool
  tags : List (String × String)
deriving DecidableEq, Repr

/-- The workspace compute plane: named policies / clusters / warehouses,
the request bodies POSTed to the two create endpoints, mutating-call
counters, and the audit trail. -/
structure ComputeState where
  policies : List (String × String) := []
  clusters : List (String × String) := []
  warehouses : List (String × String) := []
  cluster_posts : List ClusterPayload := []
  warehouse_posts : List WarehousePayload := []
  nextId : Nat := 0
  clusterCreateCalls : Nat := 0
  warehouseCreateCalls : Nat := 0
  audits : List AuditEntry := []
deriving DecidableEq, Repr

def append_audit_compute (st : ComputeState)
    (action principal identifier status details : String) : ComputeState :=
  { st with audits := st.audits ++ [⟨action, principal, identifier, status, details⟩] }

/-- `databricks_api.get_policy_id`: list the policies, return the id of the
exact-name match, raise when absent (quotes of the source message elided). -/
def get_policy_id (policy_name : String) (st : ComputeState) : Except String String :=
  match st.policies.find? (fun p => p.1 == policy_name) with
  | some p => Except.ok p.2
  | none => Except.error ("Cluster policy " ++ policy_name ++ " not found in the workspace.")

/-- The active `databricks_api.create_all_purpose_cluster`: it POSTs the
payload directly — there is no lookup of an existing cluster by name (the
lookup variant in the source is commented out).  The well-behaved remote
answers 200 with a fresh id. -/
def create_all_purpose_cluster (application_name policy_id node_type_id : String)
    (base_workers : Option Nat) ( _environment : String)
    (project_tags : List (String × String)) (st : ComputeState) :
    Except String String × ComputeState :=
  let payload := cluster_create_payload application_name policy_id node_type_id base_workers project_tags
  let cid := "c" ++ Nat.repr st.nextId
  (Except.ok cid,
   { st with
       clusters := st.clusters ++ [(application_name, cid)],
       cluster_posts := st.cluster_posts ++ [payload],
       nextId := st.nextId + 1,
       clusterCreateCalls := st.clusterCreateCalls + 1 })

/-- `databricks_api.get_sql_warehouse_id`: exact-name lookup. -/
def get_sql_warehouse_id (st : ComputeState) (wh_name : String) : Option String :=
  (st.warehouses.find? (fun w => w.1 == wh_name)).map (fun w => w.2)

/-- `databricks_api.create_sql_warehouse`: exact-name lookup first and
return the existing id without creating; otherwise POST the payload
(tags keep only non-empty values) and return the fresh id. -/
def create_sql_warehouse (application_name sql_wh_size : String)
    (project_tags : List (String × String)) (st : ComputeState) :
    Except String String × ComputeState :=
  let wh_name := application_name ++ "_Reporting_wh"
  match get_sql_warehouse_id st wh_name with
  | some wh_id => (Except.ok wh_id, st)
  | none =>
      let payload : WarehousePayload :=
        { name := wh_name, cluster_size := sql_wh_size, auto_stop_mins := 10,
          min_num_clusters := 1, max_num_clusters := 2, enable_serverless_compute := true,
          tags := project_tags.filter (fun kv => kv.2 != "") }
      let wid := "w" ++ Nat.repr st.nextId
      (Except.ok wid,
       { st with
           warehouses := st.warehouses ++ [(wh_name, wid)],
           warehouse_posts := st.warehouse_posts ++ [payload],
           nextId := st.nextId + 1,
           warehouseCreateCalls := st.warehouseCreateCalls + 1 })

/-- Return dict of `handlers.onboard_project_handler` (success cases). -/
inductive OnboardResult
  | cluster (application_name cluster_id environment : String)
  | warehouse (application_name sql_wh_id environment : String)
deriving DecidableEq, Repr

/-- `handlers.onboard_project_handler`.  Its `except` block audits one
FAILED record and re-raises `ValueError("Invalid cluster_type received:
...")` whatever the original error was. -/
def onboard_project_handler (row : Row) (st : ComputeState) :
    Except String OnboardResult × ComputeState :=
  let app_name := py_strip row.application_name
  let cluster_type := py_lower (py_strip row.cluster_type)
  let node_type_id := py_strip row.node_type_id
  let environment := py_lower (py_strip row.environment)
  let project_tags : List (String × String) :=
    [("application_name", app_name), ("environment", environment),
     ("cost_center", row.cost_center), ("department", row.department),
     ("business_owner", row.business_owner)]
  if app_name = "" then (Except.error "Application name is required", st)
  else
    let tried : Except String OnboardResult × ComputeState :=
      if cluster_type = "all-purpose" then
        match get_policy_id "Unified-All-Purpose-Compute" st with
        | Except.error e => (Except.error e, st)
        | Except.ok policy_id =>
            let r := create_all_purpose_cluster app_name policy_id node_type_id
                       row.base_workers environment project_tags st
            match r.1 with
            | Except.error e => (Except.error e, r.2)
            | Except.ok cluster_id =>
                (Except.ok (OnboardResult.cluster app_name cluster_id environment),
                 append_audit_compute r.2 "ONBOARD_PROJECT" "cluster" app_name "SUCCESS"
                   ("All-purpose cluster created: " ++ cluster_id))
      else if cluster_type = "job" then
        let r := create_sql_warehouse app_name row.sql_wh_size project_tags st
        match r.1 with
        | Except.error e => (Except.error e, r.2)
        | Except.ok wh_id =>
            (Except.ok (OnboardResult.warehouse app_name wh_id environment),
             append_audit_compute r.2 "ONBOARD_PROJECT" "sql_warehouse" app_name "SUCCESS"
               ("SQL Warehouse created: " ++ wh_id))
      else (Except.error ("Invalid cluster_type received: " ++ cluster_type), st)
    match tried with
    | (Except.ok r, st1) => (Except.ok r, st1)
    | (Except.error e, st1) =>
        (Except.error ("Invalid cluster_type received: " ++ cluster_type),
         append_audit_compute st1 "ONBOARD_PROJECT" "project" app_name "FAILED" e)

/-! ## databricks_api._safe_request -/

/-- The parsed body of an `Outcome` (structured data is abstracted to a tag;
`errText t` stands for the wrapper dict built from unparsable error text). -/
inductive OBody
  | empty
  | json (v : String)
  | errText (t : String)
deriving DecidableEq, Repr

/-- The uniform return shape of `_safe_request`. -/
structure Outcome where
  status_code : Nat
  body : OBody
  error : Option String
  message : Option String
deriving DecidableEq, Repr

/-- What one network attempt yields: a response (with its status, its parsed
JSON body when parsable, and its raw text) or a transport failure. -/
inductive AttemptResult
  | response (status : Nat) (parsed : Option String) (text : String)
  | netError (msg : String)
deriving DecidableEq, Repr

/-- The response-handling block of `_safe_request`: 200/201 are parsed
(empty body plus note on parse failure), 204 is success with empty body
and no parse attempt, and any other status yields an error Outcome. -/
def handle_response (method url : String) (status : Nat) (parsed : Option String)
    (text : String) : Outcome :=
  if status = 200 ∨ status = 201 then
    match parsed with
    | some v => { status_code := status, body := OBody.json v, error := none, message := none }
    | none => { status_code := status, body := OBody.empty, error := none,
                message := some "Empty body" }
  else if status = 204 then
    { status_code := 204, body := OBody.empty, error := none, message := some "No content" }
  else
    { status_code := status,
      body := match parsed with | some v => OBody.json v | none => OBody.errText text,
      error := some (method ++ " " ++ url ++ " failed: " ++ Nat.repr status),
      message := none }

/-- The retry loop of `_safe_request`.  The first argument is the remaining
attempt budget (`0` remaining after this one means `attempt == retries`),
the oracle list supplies each attempt's result, and the returned list
records the back-off sleeps performed.  `none` models Python's `None`
fall-through (a `retries < 1` call) or an underspecified oracle. -/
def safe_request_go (method url : String) (total : Nat) :
    Nat → List AttemptResult → Nat → Option (Outcome × List Nat)
  | 0, _, _ => none
  | _ + 1, [], _ => none
  | _ + 1, AttemptResult.response s p t :: _, _ =>
      some (handle_response method url s p t, [])
  | n + 1, AttemptResult.netError e :: rest, d =>
      if n = 0 then
        some ({ status_code := 0, body := OBody.empty,
                error := some (method ++ " " ++ url ++ " network error after " ++
                  Nat.repr total ++ " attempts: " ++ e),
                message := none }, [])
      else
        match safe_request_go method url total n rest (2 * d) with
        | some r => some (r.1, d :: r.2)
        | none => none

/-- `databricks_api._safe_request`: up to `retries` attempts, base delay 2,
doubling after each transport failure. -/
def safe_request (method url : String) (attempts : List AttemptResult)
    (retries : Nat) : Option (Outcome × List Nat) :=
  safe_request_go method url retries retries attempts 2

/-! ## logger_utils.append_audit: storage routing -/

/-- The two audit stores plus their health: `primary_write_fails` models the
structured-store INSERT raising, `file_writable` the flat file accepting
appends. -/
structure LoggerState where
  primary_rows : List AuditEntry := []
  fallback_rows : List AuditEntry := []
  primary_write_fails : Bool := false
  file_writable : Bool := true
deriving DecidableEq, Repr

/-- `AUDIT_MODE` and `_is_databricks_env()`. -/
structure LoggerConfig where
  audit_mode : String
  is_databricks_env : Bool
deriving DecidableEq, Repr

/-- `logger_utils.insert_audit_sql` (as reached through
`ensure_audit_table_sql`, whose own failures are swallowed): raises iff the
primary write fails, else appends one row to the primary store. -/
def insert_audit_sql (st : LoggerState) (row : AuditEntry) : Except String LoggerState :=
  if st.primary_write_fails then Except.error "SQL insert failed"
  else Except.ok { st with primary_rows := st.primary_rows ++ [row] }

/-- `logger_utils._append_to_file`: appends one row when the file is
writable, else swallows the failure and reports `false`. -/
def append_to_file (st : LoggerState) (row : AuditEntry) : Bool × LoggerState :=
  if st.file_writable then (true, { st with fallback_rows := st.fallback_rows ++ [row] })
  else (false, st)

/-- The storage routing of `logger_utils.append_audit`: primary store when
configured and in a Databricks environment, with any primary failure caught
and downgraded to the flat-file fallback.  Total by construction — the call
never raises. -/
def append_audit_logger (cfg : LoggerConfig) (st : LoggerState) (row : AuditEntry) :
    LoggerState :=
  if cfg.audit_mode = "delta" ∧ cfg.is_databricks_env then
    match insert_audit_sql st row with
    | Except.ok st1 => st1
    | Except.error _ => (append_to_file st row).2
  else (append_to_file st row).2

/-! ## String facts used by the proofs -/

theorem string_data_append (a b : String) : (a ++ b).data = a.data ++ b.data := rfl

theorem string_eq_empty_iff (a : String) : a = "" ↔ a.data = [] := by
  obtain ⟨d⟩ := a
  constructor
  · intro h
    exact congrArg String.data h
  · intro h
    subst h
    rfl

theorem ne_empty_iff_data (a : String) : a ≠ "" ↔ a.data ≠ [] :=
  not_congr (string_eq_empty_iff a)

theorem tm_ne_empty (s : String) : ("TM" ++ s) ≠ "" := by
  rw [ne_empty_iff_data]
  show ('T' :: 'M' :: s.data) ≠ []
  simp

theorem append_ne_empty_left (a b : String) (ha : a ≠ "") : a ++ b ≠ "" := by
  rw [ne_empty_iff_data, string_data_append]
  intro h
  exact (ne_empty_iff_data a).mp ha (List.append_eq_nil.mp h).1

theorem append_ne_empty_right (a b : String) (hb : b ≠ "") : a ++ b ≠ "" := by
  rw [ne_empty_iff_data, string_data_append]
  intro h
  exact (ne_empty_iff_data b).mp hb (List.append_eq_nil.mp h).2

/-! ## Claim C2: GroupName is deterministic and refines the spec wording -/

theorem parts_eq_filter (env buV d a r : String) (henv : env ≠ "") :
    group_name_parts env buV d a r =
      join_sep "_" (([env, if buV = "" then "" else "TM" ++ buV, d, a, r]).filter
        (fun s => s != "")) := by
  unfold group_name_parts
  by_cases hb : buV = "" <;> by_cases hd : d = "" <;> by_cases ha : a = "" <;> by_cases hr : r = "" <;>
    simp [hb, hd, ha, hr, henv, List.filter_cons, bne_iff_ne, tm_ne_empty]

theorem parts_eq_filter_ne (env buV d a r : String) (henv : env ≠ "") (hbuV : buV ≠ "") :
    group_name_parts env buV d a r =
      join_sep "_" (([env, "TM" ++ buV, d, a, r]).filter (fun s => s != "")) := by
  rw [parts_eq_filter env buV d a r henv, if_neg hbuV]

theorem ite_prod_ne_empty (c : Prop) [Decidable c] :
    (if c then "prod" else "nprod") ≠ "" := by
  split <;> decide

/-- The first concrete GroupName example of claim C2 / spec §8. -/
def c2_row_one : Row :=
  { env := "Production", bu := "Finance", domain := "Sales", appName := "CoPilot", role := "admins" }

/-- The second concrete GroupName example of claim C2 / spec §8. -/
def c2_row_two : Row :=
  { env := "dev", bu := "Others", other_type := "X", appName := "App1", role := "readers" }

/-- C2: `construct_group_name` is a pure deterministic function of the row;
it agrees on every row with the spec-worded algorithm `group_name_spec`
(environment set {prod, production, prd, p} case-insensitively to prefix
"prod", otherwise "nprod"; `other_type` override when bu is "Others",
failing when blank; non-empty parts prefix, "TM"+bu, domain, app, role
joined with "_"), and both quoted examples evaluate as the claim states. -/
theorem c2_group_name_refines :
    (∀ row, construct_group_name row = group_name_spec row)
    ∧ construct_group_name c2_row_one = Except.ok "prod_TMFinance_Sales_CoPilot_admins"
    ∧ construct_group_name c2_row_two = Except.ok "nprod_TMX_App1_readers" := by
  refine ⟨?_, by decide, by decide⟩
  intro row
  unfold construct_group_name group_name_spec
  by_cases hbu : py_strip row.bu = "Others"
  · by_cases hot : py_strip row.other_type = ""
    · simp only [hbu, hot, eq_self_iff_true, ite_true, ite_false, and_true, true_and]
    · simp only [hbu, hot, eq_self_iff_true, ite_true, ite_false, and_true, true_and,
        and_false, false_and, if_false]
      exact congrArg Except.ok (parts_eq_filter_ne _ _ _ _ _ (ite_prod_ne_empty _) hot)
  · simp only [hbu, eq_self_iff_true, ite_true, ite_false, and_true, true_and,
      and_false, false_and, if_false, if_neg hbu]
    exact congrArg Except.ok (parts_eq_filter _ _ _ _ _ (ite_prod_ne_empty _))

/-! ## Claim C10: audit append falls back without raising -/

/-- C10: `append_audit_logger` is total (the call never raises, by
construction), and when the primary structured-store write fails while the
flat-file fallback is writable, exactly the one attempted record is
appended to the fallback store and the primary store is untouched — no
record is lost. -/
theorem c10_append_audit_fallback (cfg : LoggerConfig) (st : LoggerState) (row : AuditEntry)
    (hmode : cfg.audit_mode = "delta") (henv : cfg.is_databricks_env = true)
    (hfail : st.primary_write_fails = true) (hfile : st.file_writable = true) :
    append_audit_logger cfg st row =
      { st with fallback_rows := st.fallback_rows ++ [row] } := by
  simp [append_audit_logger, insert_audit_sql, append_to_file, hmode, henv, hfail, hfile]

/-- Witness for C10 at a concrete configuration and store. -/
theorem c10_append_audit_fallback_witness :
    append_audit_logger ⟨"delta", true⟩
        { primary_rows := [], fallback_rows := [], primary_write_fails := true,
          file_writable := true } ⟨"A", "p", "i", "SUCCESS", "d"⟩ =
      { primary_rows := [], fallback_rows := [⟨"A", "p", "i", "SUCCESS", "d"⟩],
        primary_write_fails := true, file_writable := true } :=
  c10_append_audit_fallback ⟨"delta", true⟩
    { primary_rows := [], fallback_rows := [], primary_write_fails := true,
      file_writable := true } ⟨"A", "p", "i", "SUCCESS", "d"⟩ rfl rfl rfl rfl

/-! ## Claims C5 / C6: the retrying HTTP primitive -/

theorem backoff_map_succ (len d : Nat) :
    (List.range (len + 1)).map (fun i => d * 2 ^ i) =
      d :: (List.range len).map (fun i => 2 * d * 2 ^ i) := by
  rw [List.range_succ_eq_map, List.map_cons, List.map_map]
  simp only [pow_zero, Nat.mul_one]
  congr 1
  apply List.map_congr_left
  intro i _
  simp only [Function.comp_apply, pow_succ]
  ring

theorem safe_request_go_response (m u : String) (total : Nat) :
    ∀ (pre : List AttemptResult) (n d s : Nat) (p : Option String) (t : String)
      (rest : List AttemptResult),
      pre.length < n → (∀ a ∈ pre, ∃ e, a = AttemptResult.netError e) →
      safe_request_go m u total n (pre ++ AttemptResult.response s p t :: rest) d =
        some (handle_response m u s p t, (List.range pre.length).map (fun i => d * 2 ^ i)) := by
  intro pre
  induction pre with
  | nil =>
      intro n d s p t rest hn _
      match n, hn with
      | n' + 1, _ => simp [safe_request_go]
  | cons a pre ih =>
      intro n d s p t rest hn hpre
      obtain ⟨e, rfl⟩ := hpre a (List.mem_cons_self a pre)
      match n, hn with
      | n' + 1, hn =>
        have hlt : pre.length < n' := by simpa using hn
        have hne : n' ≠ 0 := by omega
        simp only [List.cons_append, safe_request_go, if_neg hne, List.append_eq]
        rw [ih n' (2 * d) s p t rest hlt (fun x hx => hpre x (List.mem_cons_of_mem _ hx))]
        simp [List.length_cons, backoff_map_succ]

theorem safe_request_go_allfail (m u : String) (total : Nat) :
    ∀ (pre : List AttemptResult) (d : Nat) (e : String) (rest : List AttemptResult),
      (∀ a ∈ pre, ∃ e2, a = AttemptResult.netError e2) →
      safe_request_go m u total (pre.length + 1) (pre ++ AttemptResult.netError e :: rest) d =
        some ({ status_code := 0, body := OBody.empty,
                error := some (m ++ " " ++ u ++ " network error after " ++
                  Nat.repr total ++ " attempts: " ++ e),
                message := none },
              (List.range pre.length).map (fun i => d * 2 ^ i)) := by
  intro pre
  induction pre with
  | nil =>
      intro d e rest _
      simp [safe_request_go]
  | cons a pre ih =>
      intro d e rest hpre
      obtain ⟨e2, rfl⟩ := hpre a (List.mem_cons_self a pre)
      have hne : pre.length + 1 ≠ 0 := by omega
      simp only [List.cons_append, List.length_cons, safe_request_go, if_neg hne, List.append_eq]
      rw [ih (2 * d) e rest (fun x hx => hpre x (List.mem_cons_of_mem _ hx))]
      simp [backoff_map_succ]

theorem handle_response_error_iff (m u : String) (s : Nat) (p : Option String) (t : String) :
    (handle_response m u s p t).error.isSome ↔
      ¬((handle_response m u s p t).status_code = 200 ∨
        (handle_response m u s p t).status_code = 201 ∨
        (handle_response m u s p t).status_code = 204) := by
  unfold handle_response
  by_cases h200 : s = 200
  · cases p <;> simp [h200]
  · by_cases h201 : s = 201
    · cases p <;> simp [h200, h201]
    · by_cases h204 : s = 204 <;> simp [h200, h201, h204]

theorem safe_request_go_error_iff (m u : String) (total : Nat) :
    ∀ (n : Nat) (attempts : List AttemptResult) (d : Nat) (out : Outcome) (ds : List Nat),
      safe_request_go m u total n attempts d = some (out, ds) →
      (out.error.isSome ↔
        ¬(out.status_code = 200 ∨ out.status_code = 201 ∨ out.status_code = 204)) := by
  intro n
  induction n with
  | zero => intro attempts d out ds h; simp [safe_request_go] at h
  | succ n ih =>
      intro attempts d out ds h
      match attempts with
      | [] => simp [safe_request_go] at h
      | AttemptResult.response s p t :: rest =>
          simp only [safe_request_go] at h
          obtain ⟨h1, h2⟩ := (Prod.mk.injEq _ _ _ _).mp (Option.some.injEq _ _ |>.mp h)
          rw [← h1]
          exact handle_response_error_iff m u s p t
      | AttemptResult.netError e :: rest =>
          by_cases hz : n = 0
          · subst hz
            simp only [safe_request_go, if_pos rfl] at h
            obtain ⟨h1, h2⟩ := (Prod.mk.injEq _ _ _ _).mp (Option.some.injEq _ _ |>.mp h)
            rw [← h1]
            simp
          · simp only [safe_request_go, if_neg hz] at h
            match hrec : safe_request_go m u total n rest (2 * d) with
            | some r =>
                rw [hrec] at h
                obtain ⟨h1, h2⟩ := (Prod.mk.injEq _ _ _ _).mp (Option.some.injEq _ _ |>.mp h)
                rw [← h1]
                exact ih rest (2 * d) r.1 r.2 (by rw [hrec])
            | none => rw [hrec] at h; simp at h

theorem safe_request_go_total (m u : String) (total : Nat) :
    ∀ (n : Nat) (attempts : List AttemptResult) (d : Nat),
      1 ≤ n → n ≤ attempts.length →
      ∃ r, safe_request_go m u total n attempts d = some r := by
  intro n
  induction n with
  | zero => intro _ _ _ h; omega
  | succ n ih =>
      intro attempts d _ hlen
      match attempts with
      | [] => simp at hlen
      | AttemptResult.response s p t :: rest =>
          exact ⟨(handle_response m u s p t, []), rfl⟩
      | AttemptResult.netError e :: rest =>
          by_cases hz : n = 0
          · subst hz
            exact ⟨_, rfl⟩
          · have h1 : 1 ≤ n := by omega
            have h2 : n ≤ rest.length := by simpa using Nat.le_of_succ_le_succ hlen
            obtain ⟨r, hr⟩ := ih rest (2 * d) h1 h2
            exact ⟨(r.1, d :: r.2), by simp [safe_request_go, if_neg hz, hr]⟩

/-- C5: `safe_request` retries transport failures with exponential backoff
from base delay 2, doubling each attempt (the sleep list is exactly
`[2, 4, 8, ...]`): transient failures on attempts `1..k-1` followed by a
response on attempt `k ≤ retries` return that response's Outcome; transport
failure on every attempt returns status_code 0 with a non-empty error
string; and for `retries ≥ 1` (with the oracle supplying every attempt) a
value is always returned — the primitive never raises. -/
theorem c5_safe_request_retry (m u : String) :
    (∀ (retries : Nat) (pre : List AttemptResult) (s : Nat) (p : Option String) (t : String)
       (rest : List AttemptResult),
       pre.length + 1 ≤ retries →
       (∀ a ∈ pre, ∃ e, a = AttemptResult.netError e) →
       safe_request m u (pre ++ AttemptResult.response s p t :: rest) retries =
         some (handle_response m u s p t, (List.range pre.length).map (fun i => 2 * 2 ^ i)))
    ∧ (∀ (pre : List AttemptResult) (e : String) (rest : List AttemptResult),
       (∀ a ∈ pre, ∃ e2, a = AttemptResult.netError e2) →
       safe_request m u (pre ++ AttemptResult.netError e :: rest) (pre.length + 1) =
         some ({ status_code := 0, body := OBody.empty,
                 error := some (m ++ " " ++ u ++ " network error after " ++
                   Nat.repr (pre.length + 1) ++ " attempts: " ++ e), message := none },
               (List.range pre.length).map (fun i => 2 * 2 ^ i))
       ∧ (m ++ " " ++ u ++ " network error after " ++ Nat.repr (pre.length + 1) ++
           " attempts: " ++ e) ≠ "")
    ∧ (∀ (attempts : List AttemptResult) (retries : Nat),
       1 ≤ retries → retries ≤ attempts.length →
       ∃ r, safe_request m u attempts retries = some r) := by
  refine ⟨?_, ?_, ?_⟩
  · intro retries pre s p t rest h1 h2
    exact safe_request_go_response m u retries pre retries 2 s p t rest (by omega) h2
  · intro pre e rest hpre
    refine ⟨safe_request_go_allfail m u (pre.length + 1) pre 2 e rest hpre, ?_⟩
    apply append_ne_empty_left
    exact append_ne_empty_right _ _ (by decide)
  · intro attempts retries h1 h2
    exact safe_request_go_total m u retries retries attempts 2 h1 h2

/-- Witness for C5: two transport failures then a 200 within `retries = 3`
returns the success Outcome after sleeping `[2, 4]`. -/
theorem c5_safe_request_retry_witness :
    safe_request "GET" "u"
        ([AttemptResult.netError "t1", AttemptResult.netError "t2"] ++
          AttemptResult.response 200 (some "body") "" :: []) 3 =
      some (handle_response "GET" "u" 200 (some "body") "",
            (List.range 2).map (fun i => 2 * 2 ^ i)) :=
  (c5_safe_request_retry "GET" "u").1 3
    [AttemptResult.netError "t1", AttemptResult.netError "t2"] 200 (some "body") "" []
    (by decide)
    (by
      intro a ha
      simp at ha
      rcases ha with rfl | rfl
      · exact ⟨"t1", rfl⟩
      · exact ⟨"t2", rfl⟩)

/-- Counterexample for C6 as stated: a 202 response — inside the claimed
"every 2xx" success set — still comes back with the error field set (the
code only treats 200, 201 and 204 as success). -/
theorem c6_counterexample :
    safe_request "GET" "u" [AttemptResult.response 202 (some "x") "t"] 1 =
      some ({ status_code := 202, body := OBody.json "x",
              error := some "GET u failed: 202", message := none }, [])
    ∧ (200 ≤ 202 ∧ 202 < 300)
    ∧ (some "GET u failed: 202" : Option String).isSome = true :=
  ⟨rfl, by decide, rfl⟩

/-- C6 (amended): for every Outcome returned by `safe_request`, the error
field is set iff the status is outside the success set {200, 201, 204}
(transport failure yields status 0, outside the set); 200/201 with an
unparsable body are success with empty body plus the informational note;
204 is success with empty body and no parse attempt.  The body field is
total by construction. -/
theorem c6_outcome_invariant (m u : String) :
    (∀ (attempts : List AttemptResult) (retries : Nat) (out : Outcome) (ds : List Nat),
       safe_request m u attempts retries = some (out, ds) →
       (out.error.isSome ↔
         ¬(out.status_code = 200 ∨ out.status_code = 201 ∨ out.status_code = 204)))
    ∧ (∀ (s : Nat) (t : String), s = 200 ∨ s = 201 →
       handle_response m u s none t =
         { status_code := s, body := OBody.empty, error := none, message := some "Empty body" })
    ∧ (∀ (p : Option String) (t : String),
       handle_response m u 204 p t =
         { status_code := 204, body := OBody.empty, error := none, message := some "No content" }) := by
  refine ⟨?_, ?_, ?_⟩
  · intro attempts retries out ds h
    exact safe_request_go_error_iff m u retries retries attempts 2 out ds h
  · intro s t hs
    unfold handle_response
    rw [if_pos hs]
  · intro p t
    simp [handle_response]

/-- Witness for C6 (amended) at a concrete 500 response. -/
theorem c6_outcome_invariant_witness :
    (safe_request "GET" "u" [AttemptResult.response 500 none "boom"] 1 =
       some ({ status_code := 500, body := OBody.errText "boom",
               error := some "GET u failed: 500", message := none }, []))
    ∧ ((some "GET u failed: 500" : Option String).isSome ↔
        ¬((500 : Nat) = 200 ∨ (500 : Nat) = 201 ∨ (500 : Nat) = 204)) :=
  ⟨rfl,
   (c6_outcome_invariant "GET" "u").1 [AttemptResult.response 500 none "boom"] 1
     { status_code := 500, body := OBody.errText "boom",
       error := some "GET u failed: 500", message := none } [] rfl⟩

/-! ## Claim C1: user creation is idempotent -/

theorem find_user_none (st : DirState) (e : String)
    (h : ∀ u ∈ st.users, u.userName ≠ e ∧ e ∉ u.emails) :
    find_user_by_email st e = none := by
  unfold find_user_by_email
  by_cases he : e = ""
  · simp [he]
  · rw [if_neg he]
    have h1 : st.users.filter (fun u => u.userName == e) = [] := by
      rw [List.filter_eq_nil_iff]
      intro u hu
      simp only [beq_iff_eq]
      exact (h u hu).1
    have h2 : st.users.filter (fun u => u.emails.contains e) = [] := by
      rw [List.filter_eq_nil_iff]
      intro u hu
      simp only [List.contains, List.elem_eq_mem, decide_eq_true_eq]
      exact (h u hu).2
    rw [h1, h2]
    rfl

theorem find_user_append_hit (st2 : DirState) (us : List ScimUser) (e : String) (newu : ScimUser)
    (husers : st2.users = us ++ [newu])
    (he : e ≠ "") (hno : ∀ u ∈ us, u.userName ≠ e)
    (hnew : newu.userName = e) :
    find_user_by_email st2 e = some newu := by
  unfold find_user_by_email
  rw [if_neg he, husers, List.filter_append]
  have h1 : us.filter (fun u => u.userName == e) = [] := by
    rw [List.filter_eq_nil_iff]
    intro u hu
    simp only [beq_iff_eq]
    exact hno u hu
  rw [h1]
  simp [List.filter_cons, hnew]

/-- C1: for a valid row (non-empty normalised `user_email`) whose email is
not yet in the directory, the first `create_user_handler` call returns
status "created" with the fresh id `Nat.repr st.nextUserId` — fresh in that
no existing user carries it — and a second call with the same row returns
status "skipped" with the SAME id while leaving the user list, the
user-create call counter and the id counter untouched (no mutating call).
`hidem` records that strip-then-lowercase normalisation is idempotent on
this row's email, as it is for every string. -/
theorem c1_create_user_idempotent (row : Row) (st : DirState)
    (hne : norm_email row.user_email ≠ "")
    (hidem : norm_email (norm_email row.user_email) = norm_email row.user_email)
    (hno : ∀ u ∈ st.users, u.userName ≠ norm_email row.user_email ∧
           norm_email row.user_email ∉ u.emails)
    (hfresh : ∀ u ∈ st.users, u.id ≠ Nat.repr st.nextUserId) :
    (create_user_handler row st).1 =
        Except.ok { status := "created", id := some (Nat.repr st.nextUserId) }
    ∧ (∀ u ∈ st.users, u.id ≠ Nat.repr st.nextUserId)
    ∧ (create_user_handler row (create_user_handler row st).2).1 =
        Except.ok { status := "skipped", id := some (Nat.repr st.nextUserId) }
    ∧ (create_user_handler row (create_user_handler row st).2).2.users =
        (create_user_handler row st).2.users
    ∧ (create_user_handler row (create_user_handler row st).2).2.userCreateCalls =
        (create_user_handler row st).2.userCreateCalls
    ∧ (create_user_handler row (create_user_handler row st).2).2.nextUserId =
        (create_user_handler row st).2.nextUserId := by
  have hfind : find_user_by_email st (norm_email row.user_email) = none :=
    find_user_none st _ hno
  refine ⟨?_, hfresh, ?_, ?_, ?_, ?_⟩
  · simp only [create_user_handler, ensure_user, hidem, hfind, if_neg hne]
    rfl
  · simp only [create_user_handler, ensure_user, hidem, hfind, if_neg hne]
    rw [find_user_append_hit _ st.users (norm_email row.user_email) _ rfl hne
      (fun u hu => (hno u hu).1) rfl]
    try rfl
  · simp only [create_user_handler, ensure_user, hidem, hfind, if_neg hne]
    rw [find_user_append_hit _ st.users (norm_email row.user_email) _ rfl hne
      (fun u hu => (hno u hu).1) rfl]
    try rfl
  · simp only [create_user_handler, ensure_user, hidem, hfind, if_neg hne]
    rw [find_user_append_hit _ st.users (norm_email row.user_email) _ rfl hne
      (fun u hu => (hno u hu).1) rfl]
    try rfl
  · simp only [create_user_handler, ensure_user, hidem, hfind, if_neg hne]
    rw [find_user_append_hit _ st.users (norm_email row.user_email) _ rfl hne
      (fun u hu => (hno u hu).1) rfl]
    try rfl

def c1_row : Row := { user_email := "a@x" }

/-- Witness for C1 on an empty directory. -/
theorem c1_create_user_idempotent_witness :
    (create_user_handler c1_row {}).1 =
        Except.ok { status := "created", id := some (Nat.repr 0) }
    ∧ (create_user_handler c1_row (create_user_handler c1_row {}).2).1 =
        Except.ok { status := "skipped", id := some (Nat.repr 0) } :=
  ⟨(c1_create_user_idempotent c1_row {} (by decide) (by decide) (by decide) (by decide)).1,
   (c1_create_user_idempotent c1_row {} (by decide) (by decide) (by decide) (by decide)).2.2.1⟩

/-! ## Claim C3: group creation fails atomically -/

theorem join_sep_head_le (sep : String) :
    ∀ (l : List String) (a : String), a.length ≤ (join_sep sep (a :: l)).length := by
  intro l
  induction l with
  | nil =>
      intro a
      simp [join_sep]
  | cons b rest ih =>
      intro a
      show a.length ≤ (a ++ sep ++ join_sep sep (b :: rest)).length
      simp only [String.length_append]
      omega

theorem group_name_parts_shape (env buV d a r : String) :
    ∃ tail, group_name_parts env buV d a r = join_sep "_" (env :: tail) := by
  simp only [group_name_parts]
  split <;> split <;> split <;> split <;> exact ⟨_, rfl⟩

theorem group_name_parts_ne_empty (env buV d a r : String) (henv : env ≠ "") :
    group_name_parts env buV d a r ≠ "" := by
  obtain ⟨tail, hshape⟩ := group_name_parts_shape env buV d a r
  rw [hshape]
  intro h
  have hle := join_sep_head_le "_" tail env
  rw [h] at hle
  have h0 : ("" : String).length = 0 := rfl
  rw [h0] at hle
  have hd : env.data.length = 0 := Nat.le_zero.mp hle
  exact (ne_empty_iff_data env).mp henv (List.length_eq_zero.mp hd)

theorem construct_ok_ne_empty (row : Row) (name : String)
    (h : construct_group_name row = Except.ok name) : name ≠ "" := by
  unfold construct_group_name at h
  by_cases hbu : py_strip row.bu = "Others"
  · rw [if_pos hbu] at h
    by_cases hot : py_strip row.other_type = ""
    · rw [if_pos hot] at h
      exact absurd h (by simp)
    · rw [if_neg hot] at h
      injection h with h2
      rw [← h2]
      exact group_name_parts_ne_empty _ _ _ _ _ (ite_prod_ne_empty _)
  · rw [if_neg hbu] at h
    injection h with h2
    rw [← h2]
    exact group_name_parts_ne_empty _ _ _ _ _ (ite_prod_ne_empty _)

/-- C3: `create_group_handler` fails atomically with zero mutating calls in
both failure-before-creation cases.  When the constructed name matches an
existing group's display name it raises the conflict error and leaves
groups, users and every mutating-call counter untouched (only the FAILED
audit entry is written); when any requested member email fails to resolve
it raises with no group created and the same state preservation. -/
theorem c3_create_group_atomic (row : Row) (st : DirState) :
    (∀ name g, construct_group_name row = Except.ok name →
       find_group_by_display_name st name = some g →
       (create_group_handler row st).1 =
         Except.error "Group already exists. Use add_to_group to add members."
       ∧ (create_group_handler row st).2.groups = st.groups
       ∧ (create_group_handler row st).2.users = st.users
       ∧ (create_group_handler row st).2.groupCreateCalls = st.groupCreateCalls
       ∧ (create_group_handler row st).2.groupPatchCalls = st.groupPatchCalls
       ∧ (create_group_handler row st).2.userCreateCalls = st.userCreateCalls)
    ∧ (∀ name, construct_group_name row = Except.ok name →
       find_group_by_display_name st name = none →
       (∃ m ∈ split_members row.group_members, get_user_id_by_email st m = none) →
       (∃ msg, (create_group_handler row st).1 = Except.error msg)
       ∧ (create_group_handler row st).2.groups = st.groups
       ∧ (create_group_handler row st).2.users = st.users
       ∧ (create_group_handler row st).2.groupCreateCalls = st.groupCreateCalls
       ∧ (create_group_handler row st).2.groupPatchCalls = st.groupPatchCalls) := by
  constructor
  · intro name g hok hfound
    have hne := construct_ok_ne_empty row name hok
    simp only [create_group_handler, hok, if_neg hne, hfound]
    exact ⟨trivial, rfl, rfl, rfl, rfl, rfl⟩
  · rintro name hok hnone ⟨m, hm, hmiss⟩
    have hne := construct_ok_ne_empty row name hok
    have hmissing : (split_members row.group_members).filter
        (fun x => (get_user_id_by_email st x).isNone) ≠ [] := by
      intro hnil
      have hmem : m ∈ (split_members row.group_members).filter
          (fun x => (get_user_id_by_email st x).isNone) :=
        List.mem_filter.mpr ⟨hm, by simp [hmiss]⟩
      rw [hnil] at hmem
      exact absurd hmem (List.not_mem_nil m)
    simp only [create_group_handler, hok, if_neg hne, hnone, if_pos hmissing]
    exact ⟨⟨_, rfl⟩, rfl, rfl, rfl, rfl⟩

def c3_row : Row := { env := "dev", bu := "Fin", role := "R" }

def c3_state : DirState :=
  { groups := [{ id := "g1", displayName := "nprod_TMFin_R", members := [] }] }

/-- Witness for C3: an existing group with the constructed name. -/
theorem c3_create_group_atomic_witness :
    (create_group_handler c3_row c3_state).1 =
      Except.error "Group already exists. Use add_to_group to add members."
    ∧ (create_group_handler c3_row c3_state).2.groups = c3_state.groups :=
  ⟨((c3_create_group_atomic c3_row c3_state).1 "nprod_TMFin_R"
      { id := "g1", displayName := "nprod_TMFin_R", members := [] } (by decide) (by decide)).1,
   ((c3_create_group_atomic c3_row c3_state).1 "nprod_TMFin_R"
      { id := "g1", displayName := "nprod_TMFin_R", members := [] } (by decide) (by decide)).2.1⟩

/-! ## Claim C4: member removal -/

theorem py_lower_ne_empty (s : String) (h : s ≠ "") : py_lower s ≠ "" := by
  rw [ne_empty_iff_data] at h ⊢
  show s.data.map lower_char ≠ []
  simp [h]

theorem split_members_ne_empty (s : String) : ∀ m ∈ split_members s, m ≠ "" := by
  intro m hm
  unfold split_members at hm
  by_cases h0 : s = ""
  · simp [h0] at hm
  · rw [if_neg h0] at hm
    by_cases hc : (py_strip s).data.contains ','
    · rw [if_pos hc] at hm
      obtain ⟨p, hp, hpm⟩ := List.mem_filterMap.mp hm
      by_cases hps : py_strip p = ""
      · simp [hps] at hpm
      · rw [if_neg hps] at hpm
        injection hpm with h2
        rw [← h2]
        exact py_lower_ne_empty _ hps
    · rw [if_neg hc] at hm
      by_cases hsc : (py_strip s).data.contains ';'
      · rw [if_pos hsc] at hm
        obtain ⟨p, hp, hpm⟩ := List.mem_filterMap.mp hm
        by_cases hps : py_strip p = ""
        · simp [hps] at hpm
        · rw [if_neg hps] at hpm
          injection hpm with h2
          rw [← h2]
          exact py_lower_ne_empty _ hps
      · rw [if_neg hsc] at hm
        by_cases hcs : py_strip s = ""
        · simp [hcs] at hm
        · rw [if_neg hcs] at hm
          have : m = py_lower (py_strip s) := List.mem_singleton.mp hm
          rw [this]
          exact py_lower_ne_empty _ hcs

theorem get_user_congr (st1 st2 : DirState) (h : st1.users = st2.users) (m : String) :
    get_user_id_by_email st1 m = get_user_id_by_email st2 m := by
  unfold get_user_id_by_email find_user_by_email
  rw [h]

/-- The per-member entry the removal loop produces for every (non-blank)
member: the resolved id when the email resolves, otherwise the member
string itself, always with status "removed". -/
def removed_entry (st : DirState) (m : String) : MemberResult :=
  { member := m, id := some ((get_user_id_by_email st m).getD m), status := "removed" }

theorem remove_loop_spec (gname gid : String) :
    ∀ (ms : List String) (st : DirState), (∀ m ∈ ms, m ≠ "") →
      (remove_members_loop gname gid ms st).1 = ms.map (removed_entry st)
      ∧ (remove_members_loop gname gid ms st).2.groupPatchCalls =
          st.groupPatchCalls + ms.length
      ∧ (remove_members_loop gname gid ms st).2.users = st.users := by
  intro ms
  induction ms with
  | nil => intro st _; exact ⟨rfl, rfl, rfl⟩
  | cons m rest ih =>
      intro st hne
      have hm : m ≠ "" := hne m (List.mem_cons_self m rest)
      have hrest : ∀ x ∈ rest, x ≠ "" := fun x hx => hne x (List.mem_cons_of_mem _ hx)
      have hstep1 : (remove_member_step st gname gid m).1 = removed_entry st m := by
        unfold remove_member_step removed_entry
        rcases hu0 : get_user_id_by_email st m with _ | v <;> simp [hu0, hm]
      have husers : (remove_member_step st gname gid m).2.users = st.users := by
        unfold remove_member_step
        rcases hu0 : get_user_id_by_email st m with _ | v <;>
          simp [hu0, hm, append_audit, scim_patch_group_remove]
      have hpatch : (remove_member_step st gname gid m).2.groupPatchCalls =
          st.groupPatchCalls + 1 := by
        unfold remove_member_step
        rcases hu0 : get_user_id_by_email st m with _ | v <;>
          simp [hu0, hm, append_audit, scim_patch_group_remove]
      obtain ⟨ih1, ih2, ih3⟩ := ih (remove_member_step st gname gid m).2 hrest
      refine ⟨?_, ?_, ?_⟩
      · show (remove_member_step st gname gid m).1 ::
            (remove_members_loop gname gid rest (remove_member_step st gname gid m).2).1 = _
        rw [hstep1, ih1, List.map_cons]
        congr 1
        apply List.map_congr_left
        intro x hx
        unfold removed_entry
        rw [get_user_congr _ st husers x]
      · show (remove_members_loop gname gid rest
            (remove_member_step st gname gid m).2).2.groupPatchCalls = _
        rw [ih2, hpatch, List.length_cons]
        omega
      · show (remove_members_loop gname gid rest
            (remove_member_step st gname gid m).2).2.users = _
        rw [ih3, husers]

/-- C4 (amended): on an existing group with a non-empty member list, every
member is processed independently with exactly one removal patch per member
(the patch counter grows by the member count); a member whose email does
not resolve is NOT recorded as "skipped" — the non-empty member string is
used as the id itself and the member is recorded as "removed" like all the
others — so the aggregate status is "removed_all". -/
theorem c4_remove_members_amended (row : Row) (st : DirState) (name : String) (g : ScimGroup)
    (hok : construct_group_name row = Except.ok name)
    (hmem : split_members row.group_members ≠ [])
    (hg : find_group_by_display_name st name = some g) :
    (remove_members_from_group_handler row st).1 =
      Except.ok { status := "removed_all",
                  results := (split_members row.group_members).map (removed_entry st) }
    ∧ (remove_members_from_group_handler row st).2.groupPatchCalls =
        st.groupPatchCalls + (split_members row.group_members).length := by
  have hne := construct_ok_ne_empty row name hok
  obtain ⟨h1, h2, h3⟩ := remove_loop_spec name g.id (split_members row.group_members) st
    (split_members_ne_empty row.group_members)
  have hany : ((remove_members_loop name g.id (split_members row.group_members) st).1.any
      (fun r => r.status != "removed")) = false := by
    rw [h1]
    simp [removed_entry]
  simp only [remove_members_from_group_handler, hok, if_neg hne, if_neg hmem, hg, hany,
    Bool.false_eq_true, if_false]
  exact ⟨by rw [h1], h2⟩

def c4_row : Row := { env := "dev", bu := "Fin", role := "R", group_members := "a@x,b@x,c@x" }

def c4_state : DirState :=
  { users := [{ id := "1", userName := "a@x", emails := ["a@x"] },
              { id := "2", userName := "b@x", emails := ["b@x"] }],
    groups := [{ id := "g1", displayName := "nprod_TMFin_R", members := ["1", "2"] }] }

/-- Counterexample for C4 as stated: three members of which `c@x` does not
resolve to any user, yet the result is "removed_all" with three "removed"
entries and no "skipped" entry — not "partial" with 2 removed and 1
skipped.  The unresolved email is patched as if it were an id. -/
theorem c4_counterexample :
    (remove_members_from_group_handler c4_row c4_state).1 =
      Except.ok { status := "removed_all",
                  results := [{ member := "a@x", id := some "1", status := "removed" },
                              { member := "b@x", id := some "2", status := "removed" },
                              { member := "c@x", id := some "c@x", status := "removed" }] }
    ∧ get_user_id_by_email c4_state "c@x" = none
    ∧ "removed_all" ≠ "partial" := by
  refine ⟨by decide, by decide, by decide⟩

/-- Witness for C4 (amended) at the same concrete input. -/
theorem c4_remove_members_amended_witness :
    (remove_members_from_group_handler c4_row c4_state).1 =
      Except.ok { status := "removed_all",
                  results := (split_members c4_row.group_members).map (removed_entry c4_state) }
    ∧ (remove_members_from_group_handler c4_row c4_state).2.groupPatchCalls =
        c4_state.groupPatchCalls + (split_members c4_row.group_members).length :=
  c4_remove_members_amended c4_row c4_state "nprod_TMFin_R"
    { id := "g1", displayName := "nprod_TMFin_R", members := ["1", "2"] }
    (by decide) (by decide) (by decide)

/-! ## Claim C7: compute provisioning -/

def c7_state : ComputeState :=
  { clusters := [("MyApp", "c0")], nextId := 5 }

/-- Counterexample for C7 as stated: a cluster named "MyApp" already exists,
yet `create_all_purpose_cluster` issues a create call anyway (counter goes
to 1, a duplicate-named cluster appears) and does not return the existing
id — the active code performs no exact-name lookup. -/
theorem c7_counterexample :
    (create_all_purpose_cluster "MyApp" "pol" "i3" (some 2) "dev" [] c7_state).2.clusterCreateCalls
        = c7_state.clusterCreateCalls + 1
    ∧ (create_all_purpose_cluster "MyApp" "pol" "i3" (some 2) "dev" [] c7_state).1 ≠ Except.ok "c0"
    ∧ c7_state.clusters = [("MyApp", "c0")]
    ∧ (create_all_purpose_cluster "MyApp" "pol" "i3" (some 2) "dev" [] c7_state).2.clusters =
        [("MyApp", "c0"), ("MyApp", "c5")] := by
  refine ⟨by decide, by decide, by decide, by decide⟩

/-- C7 (amended): `create_sql_warehouse` is idempotent by exact-name lookup
(`<app>_Reporting_wh`), returning the existing id with no state change;
when absent it POSTs exactly one payload with the non-empty tag set and the
fixed cluster bounds 1..2.  `create_all_purpose_cluster` performs NO lookup
and always issues one create, whose payload attaches the tag set and
derives autoscale bounds min = max(1, workers) and max = max(2, 2 x
workers), the requested worker count defaulting to 1 when blank. -/
theorem c7_compute_provisioning_amended :
    (∀ (app size : String) (tags : List (String × String)) (st : ComputeState) (wid : String),
       get_sql_warehouse_id st (app ++ "_Reporting_wh") = some wid →
       create_sql_warehouse app size tags st = (Except.ok wid, st))
    ∧ (∀ (app size : String) (tags : List (String × String)) (st : ComputeState),
       get_sql_warehouse_id st (app ++ "_Reporting_wh") = none →
       (create_sql_warehouse app size tags st).2.warehouse_posts =
         st.warehouse_posts ++
           [{ name := app ++ "_Reporting_wh", cluster_size := size, auto_stop_mins := 10,
              min_num_clusters := 1, max_num_clusters := 2, enable_serverless_compute := true,
              tags := tags.filter (fun kv => kv.2 != "") }]
       ∧ (create_sql_warehouse app size tags st).2.warehouseCreateCalls =
           st.warehouseCreateCalls + 1)
    ∧ (∀ (app pid nt env : String) (bw : Option Nat) (tags : List (String × String))
         (st : ComputeState),
       (create_all_purpose_cluster app pid nt bw env tags st).2.clusterCreateCalls =
         st.clusterCreateCalls + 1
       ∧ (create_all_purpose_cluster app pid nt bw env tags st).2.cluster_posts =
           st.cluster_posts ++ [cluster_create_payload app pid nt bw tags]
       ∧ (cluster_create_payload app pid nt bw tags).min_workers = max 1 (bw.getD 1)
       ∧ (cluster_create_payload app pid nt bw tags).max_workers = max 2 (2 * bw.getD 1)
       ∧ (cluster_create_payload app pid nt bw tags).custom_tags = tags) := by
  refine ⟨?_, ?_, ?_⟩
  · intro app size tags st wid h
    simp only [create_sql_warehouse, h]
  · intro app size tags st h
    simp only [create_sql_warehouse, h]
    exact ⟨trivial, trivial⟩
  · intro app pid nt env bw tags st
    refine ⟨rfl, rfl, rfl, ?_, rfl⟩
    simp [cluster_create_payload, Nat.mul_comm]

/-- Witness for C7 (amended): warehouse lookup hit returns the existing id
without creating. -/
theorem c7_compute_provisioning_amended_witness :
    create_sql_warehouse "MyApp" "Small" []
        { warehouses := [("MyApp_Reporting_wh", "w9")] } =
      (Except.ok "w9", { warehouses := [("MyApp_Reporting_wh", "w9")] }) :=
  (c7_compute_provisioning_amended).1 "MyApp" "Small" []
    { warehouses := [("MyApp_Reporting_wh", "w9")] } "w9" (by decide)

/-! ## Claim C8: ONBOARD_PROJECT branches on cluster_type -/

theorem create_sql_warehouse_ok (app size : String) (tags : List (String × String))
    (st : ComputeState) :
    ∃ wid st2, create_sql_warehouse app size tags st = (Except.ok wid, st2)
      ∧ st2.clusterCreateCalls = st.clusterCreateCalls
      ∧ st2.cluster_posts = st.cluster_posts := by
  rcases h : get_sql_warehouse_id st (app ++ "_Reporting_wh") with _ | wid <;>
    simp only [create_sql_warehouse, h] <;> exact ⟨_, _, rfl, rfl, rfl⟩

/-- C8: with a non-empty application name, `onboard_project_handler`
branches exclusively on the normalised `cluster_type`: "job" provisions a
SQL warehouse and never invokes cluster creation (cluster counter and POSTs
untouched); "all-purpose" resolves the named cluster policy and then
provisions exactly one compute cluster; any other value yields the fatal
validation error, one FAILED ONBOARD_PROJECT audit record, and zero
resource-creation calls of either kind. -/
theorem c8_onboard_branches (row : Row) (st : ComputeState)
    (happ : py_strip row.application_name ≠ "") :
    (py_lower (py_strip row.cluster_type) = "job" →
       (onboard_project_handler row st).2.clusterCreateCalls = st.clusterCreateCalls
       ∧ (onboard_project_handler row st).2.cluster_posts = st.cluster_posts
       ∧ ∃ wid, (onboard_project_handler row st).1 =
           Except.ok (OnboardResult.warehouse (py_strip row.application_name) wid
             (py_lower (py_strip row.environment))))
    ∧ (py_lower (py_strip row.cluster_type) = "all-purpose" →
       ∀ pid, get_policy_id "Unified-All-Purpose-Compute" st = Except.ok pid →
       (onboard_project_handler row st).2.clusterCreateCalls = st.clusterCreateCalls + 1
       ∧ ∃ cid, (onboard_project_handler row st).1 =
           Except.ok (OnboardResult.cluster (py_strip row.application_name) cid
             (py_lower (py_strip row.environment))))
    ∧ (py_lower (py_strip row.cluster_type) ≠ "all-purpose" →
       py_lower (py_strip row.cluster_type) ≠ "job" →
       (onboard_project_handler row st).1 =
         Except.error ("Invalid cluster_type received: " ++ py_lower (py_strip row.cluster_type))
       ∧ (onboard_project_handler row st).2.clusterCreateCalls = st.clusterCreateCalls
       ∧ (onboard_project_handler row st).2.warehouseCreateCalls = st.warehouseCreateCalls
       ∧ (onboard_project_handler row st).2.cluster_posts = st.cluster_posts
       ∧ (onboard_project_handler row st).2.warehouse_posts = st.warehouse_posts
       ∧ (onboard_project_handler row st).2.audits = st.audits ++
           [⟨"ONBOARD_PROJECT", "project", py_strip row.application_name, "FAILED",
             "Invalid cluster_type received: " ++ py_lower (py_strip row.cluster_type)⟩]) := by
  refine ⟨?_, ?_, ?_⟩
  · intro hct
    have hne1 : ¬ py_lower (py_strip row.cluster_type) = "all-purpose" := by
      rw [hct]; decide
    obtain ⟨wid, st2, hw, hc1, hc2⟩ := create_sql_warehouse_ok (py_strip row.application_name)
      row.sql_wh_size
      [("application_name", py_strip row.application_name),
       ("environment", py_lower (py_strip row.environment)),
       ("cost_center", row.cost_center), ("department", row.department),
       ("business_owner", row.business_owner)] st
    simp only [onboard_project_handler, if_neg happ, if_neg hne1, if_pos hct, hw]
    exact ⟨hc1, hc2, wid, rfl⟩
  · intro hct pid hpol
    simp only [onboard_project_handler, if_neg happ, if_pos hct, hpol]
    exact ⟨rfl, _, rfl⟩
  · intro hne1 hne2
    simp only [onboard_project_handler, if_neg happ, if_neg hne1, if_neg hne2]
    refine ⟨trivial, rfl, rfl, rfl, rfl, rfl⟩

def c8_row : Row := { application_name := "App", cluster_type := "widget" }

/-- Witness for C8 at cluster_type "widget" on an empty compute plane. -/
theorem c8_onboard_branches_witness :
    (onboard_project_handler c8_row {}).1 =
      Except.error ("Invalid cluster_type received: " ++ py_lower (py_strip c8_row.cluster_type))
    ∧ (onboard_project_handler c8_row {}).2.clusterCreateCalls =
        ComputeState.clusterCreateCalls {} :=
  ⟨((c8_onboard_branches c8_row {} (by decide)).2.2 (by decide) (by decide)).1,
   ((c8_onboard_branches c8_row {} (by decide)).2.2 (by decide) (by decide)).2.1⟩

/-! ## Claim C9: the per-row failure boundary leaks -/

def c9_row : Row := { action := "CREATE_GROUP", bu := "Others" }

/-- C9 is a code bug: on the row {action: CREATE_GROUP, bu: Others,
other_type blank, user_email blank}, `create_group_handler` raises while
constructing the group name, and the `except` block of `process_row` calls
`construct_group_name` again to build the best-effort identifier — which
raises again.  The exception escapes `process_row` (outer `Except.error`),
no FAILED audit record is written (the state, audits included, is
unchanged), and no error-shaped result is produced — contradicting the
claimed containment. -/
theorem c9_process_row_escape :
    process_row 0 c9_row {} =
      (Except.error "other_type is required when bu is Others", {})
    ∧ (process_row 0 c9_row {}).2.audits = [] := by
  refine ⟨by decide, by decide⟩
